import Mathlib

/-!
Shallow embedding of the SMART CVD risk-reduction calculator
(`cvd_risk_app.py`) and verification of the frozen claims about it.

The calculation pipeline of the script is embedded as follows.

* The intervention catalog and LDL-therapy catalog (source lines 19-42)
  become constant lists.
* The LDL projection (lines 109-116), the intervention stacking loop
  (lines 119-141) and the outcome metrics (lines 144-146) work on exact
  rationals; Python's `round(x, 1)` becomes `round1` below (round half
  up at one decimal; no property proved here depends on tie behaviour).
* The baseline risk estimator (lines 45-58, 102-106) needs `exp`, `log`
  and real powers, so it is embedded over `ℝ` with `Real.rpow`.
* The mutable `remaining` variable of the stacking loop becomes the
  staged definitions `remaining_iv`, `remaining_ldl`, `remaining_bp`,
  `remaining` (one per source stage, lines 119-141).
-/

namespace CVD

/-- One entry of the non-lipid intervention catalog (source lines 19-31):
a name, a lifetime relative-risk reduction and a 5-year one, in percent. -/
structure Intervention where
  name : String
  arr_lifetime : ℚ
  arr_5yr : ℚ
  deriving DecidableEq

/-- The intervention catalog, exactly the list of source lines 19-31. -/
def interventions : List Intervention :=
  [⟨"Smoking cessation", 17, 5⟩,
   ⟨"Antiplatelet (ASA or clopidogrel)", 6, 2⟩,
   ⟨"BP control (ACEi/ARB ± CCB)", 12, 4⟩,
   ⟨"Semaglutide 2.4 mg", 4, 1⟩,
   ⟨"Weight loss to ideal BMI", 10, 3⟩,
   ⟨"Empagliflozin", 6, 2⟩,
   ⟨"Icosapent ethyl (TG ≥1.5)", 5, 2⟩,
   ⟨"Mediterranean diet", 9, 3⟩,
   ⟨"Physical activity", 9, 3⟩,
   ⟨"Alcohol moderation", 5, 2⟩,
   ⟨"Stress reduction", 3, 1⟩]

/-- The LDL-lowering-therapy catalog (source lines 33-42): therapy name to
percent LDL reduction. -/
def ldl_therapies : List (String × ℚ) :=
  [("Atorvastatin 20 mg", 40),
   ("Atorvastatin 80 mg", 50),
   ("Rosuvastatin 10 mg", 40),
   ("Rosuvastatin 20–40 mg", 55),
   ("Simvastatin 40 mg", 35),
   ("Ezetimibe", 20),
   ("PCSK9 inhibitor", 60),
   ("Bempedoic acid", 18)]

/-- Catalog lookup `ldl_therapies[drug]`; the UI only ever passes catalog
keys, for other strings we return 0 (a factor of 1). -/
def ldl_effect (drug : String) : ℚ :=
  (ldl_therapies.lookup drug).getD 0

/-- The time horizon radio button (source line 96). -/
inductive Horizon where
  | fiveYr
  | tenYr
  | lifetime
  deriving DecidableEq

/-- The horizon-specific risk ceilings, the dict of source line 105. -/
def caps : Horizon → ℚ
  | Horizon.fiveYr => 80
  | Horizon.tenYr => 85
  | Horizon.lifetime => 90

/-- Source lines 109-112: starting from baseline LDL, each pre-admission
therapy multiplies by `(1 - pct/100)`, then the result is floored at
1.0 mmol/L. -/
def adjusted_ldl (baseline_ldl : ℚ) (pre_tx : List String) : ℚ :=
  max (pre_tx.foldl (fun l drug => l * (1 - ldl_effect drug / 100)) baseline_ldl) 1

/-- Source lines 113-116: each add-on therapy multiplies by
`(1 - (pct/100) * 0.5)` (half effect), then the result is floored at
1.0 mmol/L again. -/
def final_ldl (baseline_ldl : ℚ) (pre_tx add_tx : List String) : ℚ :=
  max (add_tx.foldl (fun l drug => l * (1 - ldl_effect drug / 100 * (0.5 : ℚ)))
        (adjusted_ldl baseline_ldl pre_tx)) 1

/-- The inputs consumed by the stacking engine and outcome metrics
(everything the source reads after line 106): the capped baseline risk,
the horizon, the selected intervention names, the LDL inputs, the blood
pressure inputs and HbA1c. -/
structure StackIn where
  baseline_risk_capped : ℚ
  horizon : Horizon
  ivs : List String
  baseline_ldl : ℚ
  pre_tx : List String
  add_tx : List String
  sbp_current : ℚ
  sbp_target : ℚ
  hba1c : ℚ
  deriving DecidableEq

/-- Source line 122: the effect size used for an intervention is the
catalog's 5-year value when the horizon is "5yr", and the lifetime value
otherwise. -/
def arrFor (h : Horizon) (iv : Intervention) : ℚ :=
  if h = Horizon.fiveYr then iv.arr_5yr else iv.arr_lifetime

/-- Source lines 119-123: `remaining` after the non-lipid intervention
loop — the capped baseline probability times `(1 - arr/100)` for each
catalog entry whose name is selected. -/
def remaining_iv (s : StackIn) : ℚ :=
  interventions.foldl
    (fun r iv => if iv.name ∈ s.ivs then r * (1 - arrFor s.horizon iv / 100) else r)
    (s.baseline_risk_capped / 100)

/-- The projected LDL of the state. -/
def fldl (s : StackIn) : ℚ :=
  final_ldl s.baseline_ldl s.pre_tx s.add_tx

/-- The LDL-attributable relative risk reduction of source line 128, taken
as 0 when the guard of line 126 fails. -/
def rrr_ldl (s : StackIn) : ℚ :=
  if fldl s < s.baseline_ldl then min (22 * (s.baseline_ldl - fldl s)) 35 else 0

/-- Source lines 126-129: `remaining` after the LDL stage. -/
def remaining_ldl (s : StackIn) : ℚ :=
  if fldl s < s.baseline_ldl then
    remaining_iv s * (1 - min (22 * (s.baseline_ldl - fldl s)) 35 / 100)
  else remaining_iv s

/-- The BP-attributable relative risk reduction of source line 133, taken
as 0 when the guard of line 132 fails. -/
def rrr_bp (s : StackIn) : ℚ :=
  if s.sbp_target < s.sbp_current then
    min (15 * ((s.sbp_current - s.sbp_target) / 10)) 20
  else 0

/-- Source lines 132-134: `remaining` after the BP stage. -/
def remaining_bp (s : StackIn) : ℚ :=
  if s.sbp_target < s.sbp_current then
    remaining_ldl s * (1 - min (15 * ((s.sbp_current - s.sbp_target) / 10)) 20 / 100)
  else remaining_ldl s

/-- The glycaemic relative risk reduction of source lines 137-141 (0 when
HbA1c is at most 7.0). -/
def rrr_hba1c (s : StackIn) : ℚ :=
  if 7 < s.hba1c then min ((s.hba1c - 7) * 9) 30 else 0

/-- Source lines 137-141: `remaining` after the HbA1c stage — the final
surviving probability. -/
def remaining (s : StackIn) : ℚ :=
  if 7 < s.hba1c then
    remaining_bp s * (1 - min ((s.hba1c - 7) * 9) 30 / 100)
  else remaining_bp s

/-- Python's `round(x, 1)`: one-decimal rounding (half up; no claim settled
here depends on the tie direction). -/
def round1 (x : ℚ) : ℚ :=
  ((round (10 * x) : ℤ) : ℚ) / 10

/-- Source line 144: the reported post-intervention risk. -/
def final_risk (s : StackIn) : ℚ :=
  round1 (remaining s * 100)

/-- Source line 145: absolute risk reduction in percentage points. -/
def arr (s : StackIn) : ℚ :=
  round1 (s.baseline_risk_capped - final_risk s)

/-- Source line 146: relative risk reduction, 0 when the capped baseline is
0 (Python truthiness guard). -/
def rrr (s : StackIn) : ℚ :=
  if s.baseline_risk_capped = 0 then 0
  else round1 (min (arr s / s.baseline_risk_capped * 100) 75)

/-- The state with one more selected intervention name (ticking one more
checkbox of source lines 91-94). -/
def addIv (s : StackIn) (n : String) : StackIn :=
  StackIn.mk s.baseline_risk_capped s.horizon (n :: s.ivs) s.baseline_ldl
    s.pre_tx s.add_tx s.sbp_current s.sbp_target s.hba1c

/-- The state with the horizon replaced. -/
def setHorizon (s : StackIn) (h : Horizon) : StackIn :=
  StackIn.mk s.baseline_risk_capped h s.ivs s.baseline_ldl
    s.pre_tx s.add_tx s.sbp_current s.sbp_target s.hba1c

/-! ### Concrete states used to instantiate the theorems -/

/-- Baseline 50%, ten-year horizon, one pre-admission statin, a 25 mmHg BP
drop and HbA1c 8: all three physiological factors are active. -/
def stateA : StackIn :=
  StackIn.mk 50 Horizon.tenYr [] (7/2) ["Atorvastatin 80 mg"] [] 145 120 8

/-- The identity scenario: baseline 85%, nothing selected, no LDL drop, no
BP drop, HbA1c 7. -/
def stateB : StackIn :=
  StackIn.mk 85 Horizon.tenYr [] (7/2) [] [] 145 145 7

/-- Baseline 10% with HbA1c 8 only: a nonzero, nondegenerate RRR. -/
def stateC : StackIn :=
  StackIn.mk 10 Horizon.tenYr [] (7/2) [] [] 145 145 8

/-- Baseline 0.1% (a reachable capped baseline), nothing else active. -/
def stateD : StackIn :=
  StackIn.mk (1/10) Horizon.tenYr [] (7/2) [] [] 145 145 7

/-- `stateD` with the weakest catalog intervention also selected. -/
def stateD' : StackIn :=
  StackIn.mk (1/10) Horizon.tenYr ["Stress reduction"] (7/2) [] [] 145 145 7

/-- Baseline LDL 0.5 mmol/L (the lowest the input surface allows) with
strong lipid therapy selected. -/
def stateE : StackIn :=
  StackIn.mk 50 Horizon.tenYr [] (1/2) ["PCSK9 inhibitor"] ["Ezetimibe"] 145 120 8

/-- Baseline 50%, nothing selected or active. -/
def stateF : StackIn :=
  StackIn.mk 50 Horizon.tenYr [] (7/2) [] [] 145 145 7

/-- The first catalog entry, used to instantiate the intervention
monotonicity theorem. -/
def ivSmoking : Intervention :=
  ⟨"Smoking cessation", 17, 5⟩

/-! ### Helper lemmas about one-decimal rounding -/

lemma round_mono_q {x y : ℚ} (h : x ≤ y) : round x ≤ round y := by
  rw [round_eq, round_eq]
  exact Int.floor_le_floor (by linarith)

lemma round1_mono {x y : ℚ} (h : x ≤ y) : round1 x ≤ round1 y := by
  unfold round1
  have h10 : (10 : ℚ) * x ≤ 10 * y := by linarith
  have := round_mono_q h10
  have hc : ((round (10 * x) : ℤ) : ℚ) ≤ ((round (10 * y) : ℤ) : ℚ) := by exact_mod_cast this
  linarith

lemma round1_int (k : ℤ) : round1 ((k : ℚ) / 10) = (k : ℚ) / 10 := by
  unfold round1
  have h : (10 : ℚ) * ((k : ℚ) / 10) = (k : ℚ) := by ring
  rw [h, round_intCast]

lemma round1_zero : round1 0 = 0 := by
  have := round1_int 0
  simpa using this

/-! ### Fold-to-product lemmas for the multiplicative loops -/

lemma foldl_mul_eq_prod (f : String → ℚ) :
    ∀ (l : List String) (r : ℚ),
      l.foldl (fun x d => x * f d) r = r * (l.map f).prod := by
  intro l
  induction l with
  | nil => intro r; simp
  | cons a t ih =>
    intro r
    simp only [List.foldl_cons, List.map_cons, List.prod_cons, ih]
    ring

lemma foldl_ite_mul_eq_prod (I : List String) (g : Intervention → ℚ) :
    ∀ (l : List Intervention) (r : ℚ),
      l.foldl (fun r iv => if iv.name ∈ I then r * g iv else r) r
        = r * (l.map (fun iv => if iv.name ∈ I then g iv else 1)).prod := by
  intro l
  induction l with
  | nil => intro r; simp
  | cons a t ih =>
    intro r
    simp only [List.foldl_cons, List.map_cons, List.prod_cons, ih]
    by_cases hc : a.name ∈ I
    · rw [if_pos hc, if_pos hc]; ring
    · rw [if_neg hc, if_neg hc]; ring

/-- The intervention loop as a product over the catalog. -/
lemma remaining_iv_eq (s : StackIn) :
    remaining_iv s = s.baseline_risk_capped / 100 *
      (interventions.map
        (fun iv => if iv.name ∈ s.ivs then 1 - arrFor s.horizon iv / 100 else 1)).prod := by
  unfold remaining_iv
  exact foldl_ite_mul_eq_prod s.ivs (fun iv => 1 - arrFor s.horizon iv / 100) interventions _

/-! ### Bounds on the three physiological reduction factors -/

lemma rrr_ldl_nonneg (s : StackIn) : 0 ≤ rrr_ldl s := by
  unfold rrr_ldl
  split
  · rename_i h
    exact le_min (by linarith) (by norm_num)
  · exact le_refl 0

lemma rrr_ldl_le (s : StackIn) : rrr_ldl s ≤ 35 := by
  unfold rrr_ldl
  split
  · exact min_le_right _ _
  · norm_num

lemma rrr_bp_nonneg (s : StackIn) : 0 ≤ rrr_bp s := by
  unfold rrr_bp
  split
  · rename_i h
    exact le_min (by linarith) (by norm_num)
  · exact le_refl 0

lemma rrr_bp_le (s : StackIn) : rrr_bp s ≤ 20 := by
  unfold rrr_bp
  split
  · exact min_le_right _ _
  · norm_num

lemma rrr_hba1c_nonneg (s : StackIn) : 0 ≤ rrr_hba1c s := by
  unfold rrr_hba1c
  split
  · rename_i h
    exact le_min (by linarith) (by norm_num)
  · exact le_refl 0

lemma rrr_hba1c_le (s : StackIn) : rrr_hba1c s ≤ 30 := by
  unfold rrr_hba1c
  split
  · exact min_le_right _ _
  · norm_num

/-! ### Stage decompositions: each stage is one multiplication -/

lemma remaining_ldl_eq (s : StackIn) :
    remaining_ldl s = remaining_iv s * (1 - rrr_ldl s / 100) := by
  unfold remaining_ldl rrr_ldl
  split
  · rfl
  · ring

lemma remaining_bp_eq (s : StackIn) :
    remaining_bp s = remaining_ldl s * (1 - rrr_bp s / 100) := by
  unfold remaining_bp rrr_bp
  split
  · rfl
  · ring

lemma remaining_hba1c_eq (s : StackIn) :
    remaining s = remaining_bp s * (1 - rrr_hba1c s / 100) := by
  unfold remaining rrr_hba1c
  split
  · rfl
  · ring

/-- The whole stacking loop: the capped baseline probability, one factor per
selected intervention, and one factor per physiological effect. -/
lemma remaining_eq (s : StackIn) :
    remaining s = remaining_iv s * (1 - rrr_ldl s / 100) * (1 - rrr_bp s / 100) *
      (1 - rrr_hba1c s / 100) := by
  rw [remaining_hba1c_eq, remaining_bp_eq, remaining_ldl_eq]

/-! ### Positivity facts -/

/-- Every catalog effect size, at every horizon, is strictly between 0
and 100 percent. -/
lemma arrFor_mem_bounds (h : Horizon) :
    ∀ iv ∈ interventions, 0 < arrFor h iv ∧ arrFor h iv < 100 := by
  intro iv hiv
  fin_cases hiv <;> cases h <;> simp [arrFor] <;> norm_num

lemma iv_prod_pos (s : StackIn) :
    0 < (interventions.map
      (fun iv => if iv.name ∈ s.ivs then 1 - arrFor s.horizon iv / 100 else 1)).prod := by
  apply List.prod_pos
  intro x hx
  rcases List.mem_map.mp hx with ⟨iv, hiv, rfl⟩
  by_cases hc : iv.name ∈ s.ivs
  · rw [if_pos hc]
    have := (arrFor_mem_bounds s.horizon iv hiv).2
    linarith
  · rw [if_neg hc]; norm_num

lemma remaining_iv_pos (s : StackIn) (hb : 0 < s.baseline_risk_capped) :
    0 < remaining_iv s := by
  rw [remaining_iv_eq]
  exact mul_pos (by linarith) (iv_prod_pos s)

lemma remaining_iv_nonneg (s : StackIn) (hb : 0 ≤ s.baseline_risk_capped) :
    0 ≤ remaining_iv s := by
  rw [remaining_iv_eq]
  exact mul_nonneg (by linarith) (le_of_lt (iv_prod_pos s))

lemma factor_ldl_pos (s : StackIn) : 0 < 1 - rrr_ldl s / 100 := by
  have := rrr_ldl_le s; linarith

lemma factor_bp_pos (s : StackIn) : 0 < 1 - rrr_bp s / 100 := by
  have := rrr_bp_le s; linarith

lemma factor_hba1c_pos (s : StackIn) : 0 < 1 - rrr_hba1c s / 100 := by
  have := rrr_hba1c_le s; linarith

/-! ### Effect of selecting one more intervention -/

/-- The 11 catalog names are pairwise distinct. -/
lemma interventions_names_nodup :
    (interventions.map (fun iv => iv.name)).Nodup := by decide

lemma prod_ite_cons (g : Intervention → ℚ) (I : List String) :
    ∀ (l : List Intervention), (l.map (fun e => e.name)).Nodup →
      ∀ iv, iv ∈ l → iv.name ∉ I →
      (l.map (fun e => if e.name ∈ iv.name :: I then g e else 1)).prod
        = g iv * (l.map (fun e => if e.name ∈ I then g e else 1)).prod := by
  intro l
  induction l with
  | nil => intro _ iv hiv; exact absurd hiv (List.not_mem_nil iv)
  | cons a t ih =>
    intro hnd iv hiv hnI
    rw [List.map_cons, List.nodup_cons] at hnd
    rcases List.mem_cons.mp hiv with rfl | hivt
    · have htcong :
          t.map (fun e => if e.name ∈ iv.name :: I then g e else 1)
            = t.map (fun e => if e.name ∈ I then g e else 1) := by
        apply List.map_congr_left
        intro e het
        have hne : e.name ≠ iv.name := by
          intro hcontra
          exact hnd.1 (hcontra ▸ List.mem_map_of_mem (fun x => x.name) het)
        by_cases hc : e.name ∈ I
        · rw [if_pos (List.mem_cons_of_mem _ hc), if_pos hc]
        · rw [if_neg (by simp [hne, hc]), if_neg hc]
      simp only [List.map_cons, List.prod_cons, htcong,
        if_pos (List.mem_cons_self iv.name I), if_neg hnI]
      ring
    · have hane : a.name ≠ iv.name := by
        intro hcontra
        exact hnd.1 (hcontra ▸ List.mem_map_of_mem (fun x => x.name) hivt)
      have hahead : (if a.name ∈ iv.name :: I then g a else 1)
          = (if a.name ∈ I then g a else 1) := by
        by_cases hc : a.name ∈ I
        · rw [if_pos (List.mem_cons_of_mem _ hc), if_pos hc]
        · rw [if_neg (by simp [hane, hc]), if_neg hc]
      simp only [List.map_cons, List.prod_cons, hahead, ih hnd.2 iv hivt hnI]
      ring

/-- Ticking one more catalog intervention multiplies the post-loop
probability by that intervention's `(1 - effect/100)` factor. -/
lemma remaining_iv_addIv (s : StackIn) (iv : Intervention)
    (hiv : iv ∈ interventions) (hn : iv.name ∉ s.ivs) :
    remaining_iv (addIv s iv.name) = remaining_iv s * (1 - arrFor s.horizon iv / 100) := by
  rw [remaining_iv_eq, remaining_iv_eq]
  show s.baseline_risk_capped / 100 *
      (interventions.map
        (fun e => if e.name ∈ iv.name :: s.ivs then 1 - arrFor s.horizon e / 100 else 1)).prod
    = _
  rw [prod_ite_cons (fun e => 1 - arrFor s.horizon e / 100) s.ivs interventions
    interventions_names_nodup iv hiv hn]
  ring

lemma remaining_addIv (s : StackIn) (iv : Intervention)
    (hiv : iv ∈ interventions) (hn : iv.name ∉ s.ivs) :
    remaining (addIv s iv.name) = remaining s * (1 - arrFor s.horizon iv / 100) := by
  have h1 : rrr_ldl (addIv s iv.name) = rrr_ldl s := rfl
  have h2 : rrr_bp (addIv s iv.name) = rrr_bp s := rfl
  have h3 : rrr_hba1c (addIv s iv.name) = rrr_hba1c s := rfl
  rw [remaining_eq, remaining_eq, h1, h2, h3, remaining_iv_addIv s iv hiv hn]
  ring

/-! ### The baseline risk estimator (source lines 45-58, 102-106), over ℝ -/

/-- Python's `round(x, 1)` on the real numbers (half up at one decimal; no
property settled here depends on the tie direction). -/
noncomputable def round1R (x : ℝ) : ℝ :=
  ((round (10 * x) : ℤ) : ℝ) / 10

/-- Source line 49: `math.log(crp + 1) if crp else 0`. -/
noncomputable def crp_log (crp : ℝ) : ℝ :=
  if crp = 0 then 0 else Real.log (crp + 1)

/-- The linear predictor of source lines 46-52. -/
noncomputable def smart_lp (age : ℝ) (sex : String) (sbp total_chol hdl : ℝ)
    (smoker diabetes : Bool) (egfr crp : ℝ) (vasc_count : ℕ) : ℝ :=
  0.064 * age + 0.34 * (if sex = "Male" then 1 else 0) + 0.02 * sbp
    + 0.25 * total_chol - 0.25 * hdl + 0.44 * (if smoker then 1 else 0)
    + 0.51 * (if diabetes then 1 else 0) - 0.2 * (egfr / 10)
    + 0.25 * crp_log crp + 0.4 * (vasc_count : ℝ)

/-- Source lines 45-54: `risk10 = 1 - 0.900**exp(lp - 5.8)`, returned as a
percentage rounded to one decimal. -/
noncomputable def estimate_smart_risk (age : ℝ) (sex : String) (sbp total_chol hdl : ℝ)
    (smoker diabetes : Bool) (egfr crp : ℝ) (vasc_count : ℕ) : ℝ :=
  round1R ((1 - (0.900 : ℝ) ^
    Real.exp (smart_lp age sex sbp total_chol hdl smoker diabetes egfr crp vasc_count - 5.8))
    * 100)

/-- Source lines 56-58: the 5-year figure derived from the 10-year one by
the constant-hazard conversion, rounded to one decimal. -/
noncomputable def convert_5yr_from_10yr (risk10 : ℝ) : ℝ :=
  round1R ((1 - (1 - risk10 / 100) ^ ((0.5 : ℝ))) * 100)

/-- Source line 104: the pre-cap baseline risk for a horizon, given the
10-year figure. -/
noncomputable def baseline_risk (h : Horizon) (risk10 : ℝ) : ℝ :=
  if h = Horizon.fiveYr then convert_5yr_from_10yr risk10 else risk10

/-- Source line 106: the capped baseline risk. -/
noncomputable def baseline_risk_capped (h : Horizon) (risk10 : ℝ) : ℝ :=
  min (baseline_risk h risk10) ((caps h : ℚ) : ℝ)

/-! ### Helper lemmas for the estimator -/

lemma round_mono_r {x y : ℝ} (h : x ≤ y) : round x ≤ round y := by
  rw [round_eq, round_eq]
  exact Int.floor_le_floor (by linarith)

lemma round1R_mono {x y : ℝ} (h : x ≤ y) : round1R x ≤ round1R y := by
  unfold round1R
  have h10 : (10 : ℝ) * x ≤ 10 * y := by linarith
  have := round_mono_r h10
  have hc : ((round (10 * x) : ℤ) : ℝ) ≤ ((round (10 * y) : ℤ) : ℝ) := by exact_mod_cast this
  linarith

lemma round1R_int (k : ℤ) : round1R ((k : ℝ) / 10) = (k : ℝ) / 10 := by
  unfold round1R
  have h : (10 : ℝ) * ((k : ℝ) / 10) = (k : ℝ) := by ring
  rw [h, round_intCast]

/-- The survival factor `0.9 ^ exp t` is strictly between 0 and 1. -/
lemma surv_pos (t : ℝ) : 0 < (0.900 : ℝ) ^ Real.exp t :=
  Real.rpow_pos_of_pos (by norm_num) _

lemma surv_lt_one (t : ℝ) : (0.900 : ℝ) ^ Real.exp t < 1 :=
  Real.rpow_lt_one (by norm_num) (by norm_num) (Real.exp_pos t)

/-- The estimator's output is always of the form `k / 10`. -/
lemma estimate_form (age : ℝ) (sex : String) (sbp total_chol hdl : ℝ)
    (smoker diabetes : Bool) (egfr crp : ℝ) (vasc_count : ℕ) :
    ∃ k : ℤ, estimate_smart_risk age sex sbp total_chol hdl smoker diabetes egfr crp vasc_count
      = (k : ℝ) / 10 :=
  ⟨_, rfl⟩

lemma convert_form (r : ℝ) : ∃ k : ℤ, convert_5yr_from_10yr r = (k : ℝ) / 10 :=
  ⟨_, rfl⟩

lemma estimate_nonneg (age : ℝ) (sex : String) (sbp total_chol hdl : ℝ)
    (smoker diabetes : Bool) (egfr crp : ℝ) (vasc_count : ℕ) :
    0 ≤ estimate_smart_risk age sex sbp total_chol hdl smoker diabetes egfr crp vasc_count := by
  unfold estimate_smart_risk
  have h := surv_lt_one (smart_lp age sex sbp total_chol hdl smoker diabetes egfr crp vasc_count - 5.8)
  have h0 : (0 : ℝ) ≤ (1 - (0.900 : ℝ) ^
      Real.exp (smart_lp age sex sbp total_chol hdl smoker diabetes egfr crp vasc_count - 5.8)) * 100 := by
    nlinarith
  have := round1R_mono h0
  have hz : round1R 0 = 0 := by
    have := round1R_int 0
    simpa using this
  linarith [hz ▸ this]

lemma estimate_le_100 (age : ℝ) (sex : String) (sbp total_chol hdl : ℝ)
    (smoker diabetes : Bool) (egfr crp : ℝ) (vasc_count : ℕ) :
    estimate_smart_risk age sex sbp total_chol hdl smoker diabetes egfr crp vasc_count ≤ 100 := by
  unfold estimate_smart_risk
  have h := surv_pos (smart_lp age sex sbp total_chol hdl smoker diabetes egfr crp vasc_count - 5.8)
  have h0 : (1 - (0.900 : ℝ) ^
      Real.exp (smart_lp age sex sbp total_chol hdl smoker diabetes egfr crp vasc_count - 5.8)) * 100
      ≤ 100 := by nlinarith
  have hmono := round1R_mono h0
  have hfix : round1R 100 = 100 := by
    have := round1R_int 1000
    norm_num at this
    exact this
  linarith [hfix ▸ hmono]

/-- The horizon conversion never increases a one-decimal risk figure in
`[0, 100]`. -/
lemma convert_le (r : ℝ) (h0 : 0 ≤ r) (h100 : r ≤ 100)
    (hfix : round1R r = r) : convert_5yr_from_10yr r ≤ r := by
  unfold convert_5yr_from_10yr
  have hbase0 : (0 : ℝ) ≤ 1 - r / 100 := by linarith
  have hbase1 : 1 - r / 100 ≤ 1 := by linarith
  by_cases hb : (1 - r / 100) = 0
  · have hr : r = 100 := by linarith [hb]
    rw [hb, Real.zero_rpow (by norm_num : (0.5 : ℝ) ≠ 0)]
    rw [hr] at hfix ⊢
    norm_num
    linarith [le_of_eq hfix]
  · have hbpos : 0 < 1 - r / 100 := lt_of_le_of_ne hbase0 (Ne.symm hb)
    have hpow : (1 - r / 100) ^ (1 : ℝ) ≤ (1 - r / 100) ^ ((0.5 : ℝ)) :=
      Real.rpow_le_rpow_of_exponent_ge hbpos hbase1 (by norm_num)
    rw [Real.rpow_one] at hpow
    have hle : (1 - (1 - r / 100) ^ ((0.5 : ℝ))) * 100 ≤ r := by nlinarith
    calc round1R ((1 - (1 - r / 100) ^ ((0.5 : ℝ))) * 100) ≤ round1R r := round1R_mono hle
      _ = r := hfix

/-! ### A few more arithmetic helpers -/

lemma remaining_nonneg (s : StackIn) (hb : 0 ≤ s.baseline_risk_capped) :
    0 ≤ remaining s := by
  rw [remaining_eq]
  exact mul_nonneg (mul_nonneg (mul_nonneg (remaining_iv_nonneg s hb)
    (factor_ldl_pos s).le) (factor_bp_pos s).le) (factor_hba1c_pos s).le

lemma remaining_pos (s : StackIn) (hb : 0 < s.baseline_risk_capped) :
    0 < remaining s := by
  rw [remaining_eq]
  exact mul_pos (mul_pos (mul_pos (remaining_iv_pos s hb)
    (factor_ldl_pos s)) (factor_bp_pos s)) (factor_hba1c_pos s)

lemma min_tenth (k m : ℤ) :
    min ((k : ℝ) / 10) ((m : ℝ) / 10) = ((min k m : ℤ) : ℝ) / 10 := by
  push_cast
  rw [min_div_div_right (by norm_num : (0 : ℝ) ≤ 10)]

/-! ## The claims -/

/-- C1: in the stacking engine the three physiological factors are each
capped before being applied and each multiplies the running probability at
most once: the final probability is the post-loop probability times one
`(1 - rrr/100)` factor per effect; when projected LDL is below baseline
the LDL factor is `min (22 * drop) 35` percent (so at most 35); when the
target SBP is below the current one the BP factor is
`min (15 * (drop/10)) 20` percent (so at most 20); when HbA1c exceeds 7.0
the glycaemic factor is `min ((hba1c - 7) * 9) 30` percent (so at most 30),
and it is exactly 0 — never negative — otherwise. -/
theorem C1_factor_caps_and_single_application (s : StackIn) :
    remaining s = remaining_iv s * (1 - rrr_ldl s / 100) * (1 - rrr_bp s / 100) *
        (1 - rrr_hba1c s / 100)
    ∧ rrr_ldl s ≤ 35 ∧ rrr_bp s ≤ 20 ∧ 0 ≤ rrr_hba1c s ∧ rrr_hba1c s ≤ 30
    ∧ (fldl s < s.baseline_ldl →
        rrr_ldl s = min (22 * (s.baseline_ldl - fldl s)) 35)
    ∧ (s.sbp_target < s.sbp_current →
        rrr_bp s = min (15 * ((s.sbp_current - s.sbp_target) / 10)) 20)
    ∧ (7 < s.hba1c → rrr_hba1c s = min ((s.hba1c - 7) * 9) 30)
    ∧ (s.hba1c ≤ 7 → rrr_hba1c s = 0) :=
  ⟨remaining_eq s, rrr_ldl_le s, rrr_bp_le s, rrr_hba1c_nonneg s, rrr_hba1c_le s,
   fun h => by unfold rrr_ldl; rw [if_pos h],
   fun h => by unfold rrr_bp; rw [if_pos h],
   fun h => by unfold rrr_hba1c; rw [if_pos h],
   fun h => by unfold rrr_hba1c; rw [if_neg (not_lt.mpr h)]⟩

/-- C1 witness: at `stateA` all three conditions hold and the three factor
formulas are realised. -/
theorem C1_factor_caps_witness :
    rrr_ldl stateA = min (22 * (stateA.baseline_ldl - fldl stateA)) 35
    ∧ rrr_bp stateA = min (15 * ((stateA.sbp_current - stateA.sbp_target) / 10)) 20
    ∧ rrr_hba1c stateA = min ((stateA.hba1c - 7) * 9) 30 :=
  ⟨(C1_factor_caps_and_single_application stateA).2.2.2.2.2.1
      (by simp [stateA, fldl, final_ldl, adjusted_ldl, ldl_effect, ldl_therapies, List.lookup]
          norm_num),
   (C1_factor_caps_and_single_application stateA).2.2.2.2.2.2.1 (by norm_num [stateA]),
   (C1_factor_caps_and_single_application stateA).2.2.2.2.2.2.2.1 (by norm_num [stateA])⟩

/-- C2: with no intervention selected, no LDL drop, no BP drop and
HbA1c at most 7.0, the reported final risk equals the capped baseline risk
exactly, ARR is 0 and RRR is 0 (the capped baseline is of one-decimal form
`k/10`, as every capped baseline the app produces is). -/
theorem C2_identity_case (s : StackIn)
    (hk : ∃ k : ℤ, s.baseline_risk_capped = (k : ℚ) / 10)
    (hivs : s.ivs = []) (hldl : ¬ fldl s < s.baseline_ldl)
    (hbp : ¬ s.sbp_target < s.sbp_current) (hhba : s.hba1c ≤ 7) :
    final_risk s = s.baseline_risk_capped ∧ arr s = 0 ∧ rrr s = 0 := by
  obtain ⟨k, hkk⟩ := hk
  have hiv : remaining_iv s = s.baseline_risk_capped / 100 := by
    unfold remaining_iv
    rw [hivs]
    simp [interventions]
  have hldl' : remaining_ldl s = remaining_iv s := by
    unfold remaining_ldl; rw [if_neg hldl]
  have hbp' : remaining_bp s = remaining_ldl s := by
    unfold remaining_bp; rw [if_neg hbp]
  have hhba' : remaining s = remaining_bp s := by
    unfold remaining; rw [if_neg (not_lt.mpr hhba)]
  have hrem : remaining s = s.baseline_risk_capped / 100 := by
    rw [hhba', hbp', hldl', hiv]
  have hfr : final_risk s = s.baseline_risk_capped := by
    unfold final_risk
    rw [hrem]
    have hmul : s.baseline_risk_capped / 100 * 100 = s.baseline_risk_capped := by ring
    rw [hmul, hkk, round1_int]
  have harr : arr s = 0 := by
    unfold arr
    rw [hfr, sub_self, round1_zero]
  refine ⟨hfr, harr, ?_⟩
  unfold rrr
  by_cases hb : s.baseline_risk_capped = 0
  · rw [if_pos hb]
  · rw [if_neg hb, harr]
    have hmin : min ((0 : ℚ) / s.baseline_risk_capped * 100) 75 = 0 := by
      rw [zero_div, zero_mul]
      norm_num
    rw [hmin, round1_zero]

/-- C2 witness: the identity case realised at `stateB` (capped baseline
85). -/
theorem C2_identity_case_witness :
    final_risk stateB = stateB.baseline_risk_capped ∧ arr stateB = 0 ∧ rrr stateB = 0 :=
  C2_identity_case stateB ⟨850, by norm_num [stateB]⟩ rfl
    (by simp [stateB, fldl, final_ldl, adjusted_ldl])
    (by norm_num [stateB]) (by norm_num [stateB])

/-- C5: the LDL projection applies each pre-admission therapy's full
catalog effect as a factor `(1 - pct/100)`, floors at 1.0, applies each
add-on therapy at half effect `(1 - (pct/100) * 0.5)`, and floors at 1.0
again; both the intermediate and the projected LDL are never below
1.0 mmol/L, for every baseline LDL and every choice of therapy lists. -/
theorem C5_ldl_projection_floor (baseline_ldl : ℚ) (pre_tx add_tx : List String) :
    1 ≤ adjusted_ldl baseline_ldl pre_tx
    ∧ 1 ≤ final_ldl baseline_ldl pre_tx add_tx
    ∧ adjusted_ldl baseline_ldl pre_tx
        = max (baseline_ldl * (pre_tx.map (fun d => 1 - ldl_effect d / 100)).prod) 1
    ∧ final_ldl baseline_ldl pre_tx add_tx
        = max (adjusted_ldl baseline_ldl pre_tx *
            (add_tx.map (fun d => 1 - ldl_effect d / 100 * (0.5 : ℚ))).prod) 1 := by
  refine ⟨le_max_right _ _, le_max_right _ _, ?_, ?_⟩
  · unfold adjusted_ldl
    rw [foldl_mul_eq_prod]
  · unfold final_ldl
    rw [foldl_mul_eq_prod]

/-- C7: the LDL projection is order-invariant in the pre-admission
therapies: permuting the pre-admission list never changes the adjusted
LDL (here even exactly, not only up to rounding). -/
theorem C7_ldl_order_invariance (baseline_ldl : ℚ) (pre_tx pre_tx' : List String)
    (hperm : pre_tx.Perm pre_tx') :
    adjusted_ldl baseline_ldl pre_tx = adjusted_ldl baseline_ldl pre_tx' := by
  unfold adjusted_ldl
  rw [foldl_mul_eq_prod, foldl_mul_eq_prod,
    List.Perm.prod_eq (hperm.map (fun d => 1 - ldl_effect d / 100))]

/-- C7 witness: swapping two concrete therapies leaves the adjusted LDL
unchanged. -/
theorem C7_ldl_order_invariance_witness :
    adjusted_ldl (7/2) ["Ezetimibe", "PCSK9 inhibitor"]
      = adjusted_ldl (7/2) ["PCSK9 inhibitor", "Ezetimibe"] :=
  C7_ldl_order_invariance (7/2) _ _ (List.Perm.swap _ _ _)

/-- C10: the LDL-attributable factor is applied only when the projected
LDL is strictly below the baseline LDL; and when baseline LDL is at most
1.0 mmol/L, the 1.0 floor keeps the projected LDL at or above baseline, so
no LDL-attributable reduction is ever applied, whatever therapies are
selected. -/
theorem C10_ldl_guard_low_baseline (s : StackIn) :
    (¬ fldl s < s.baseline_ldl →
      remaining_ldl s = remaining_iv s ∧ rrr_ldl s = 0)
    ∧ (s.baseline_ldl ≤ 1 → ¬ fldl s < s.baseline_ldl) := by
  constructor
  · intro h
    constructor
    · unfold remaining_ldl; rw [if_neg h]
    · unfold rrr_ldl; rw [if_neg h]
  · intro h
    have h1 : (1 : ℚ) ≤ fldl s := by
      unfold fldl final_ldl
      exact le_max_right _ _
    exact not_lt.mpr (le_trans h h1)

/-- C10 witness: at baseline LDL 0.5 with strong therapy selected, the
floor blocks any LDL-attributable reduction. -/
theorem C10_ldl_guard_witness :
    remaining_ldl stateE = remaining_iv stateE ∧ rrr_ldl stateE = 0
    ∧ ¬ fldl stateE < stateE.baseline_ldl := by
  have hn : ¬ fldl stateE < stateE.baseline_ldl :=
    (C10_ldl_guard_low_baseline stateE).2 (by norm_num [stateE])
  exact ⟨((C10_ldl_guard_low_baseline stateE).1 hn).1,
    ((C10_ldl_guard_low_baseline stateE).1 hn).2, hn⟩

/-- C6: the reported RRR is `round1 (min (ARR / baseline * 100) 75)` when
the capped baseline is nonzero, is defined as 0 when the capped baseline
is exactly 0, and never exceeds 75 for any input. -/
theorem C6_rrr_guard_and_cap (s : StackIn) :
    rrr s ≤ 75
    ∧ (s.baseline_risk_capped = 0 → rrr s = 0)
    ∧ (s.baseline_risk_capped ≠ 0 →
        rrr s = round1 (min (arr s / s.baseline_risk_capped * 100) 75)) := by
  refine ⟨?_, ?_, ?_⟩
  · unfold rrr
    split
    · norm_num
    · have h75 : min (arr s / s.baseline_risk_capped * 100) 75 ≤ (75 : ℚ) :=
        min_le_right _ _
      have hmono := round1_mono h75
      have hfix : round1 75 = 75 := by
        have := round1_int 750
        norm_num at this
        exact this
      linarith [hfix ▸ hmono]
  · intro h; unfold rrr; rw [if_pos h]
  · intro h; unfold rrr; rw [if_neg h]

/-- C6 witness: at `stateC` the baseline is nonzero and the RRR formula is
realised. -/
theorem C6_rrr_guard_witness :
    rrr stateC ≤ 75
    ∧ rrr stateC = round1 (min (arr stateC / stateC.baseline_risk_capped * 100) 75) :=
  ⟨(C6_rrr_guard_and_cap stateC).1,
   (C6_rrr_guard_and_cap stateC).2.2 (by norm_num [stateC])⟩

/-- C9: on the ten-year horizon the stacking engine applies each selected
intervention's lifetime effect value — the engine behaves identically on
the ten-year and lifetime horizons, the catalog's 5-year value is used
exactly when the horizon is five-year, and there is no distinct ten-year
effect size. -/
theorem C9_tenyr_uses_lifetime_effects (s : StackIn) (iv : Intervention) :
    remaining (setHorizon s Horizon.tenYr) = remaining (setHorizon s Horizon.lifetime)
    ∧ arrFor Horizon.tenYr iv = iv.arr_lifetime
    ∧ arrFor Horizon.fiveYr iv = iv.arr_5yr
    ∧ arrFor Horizon.lifetime iv = iv.arr_lifetime := by
  refine ⟨?_, by simp [arrFor], by simp [arrFor], by simp [arrFor]⟩
  have e0 : remaining_iv (setHorizon s Horizon.tenYr)
      = remaining_iv (setHorizon s Horizon.lifetime) := by
    unfold remaining_iv setHorizon
    simp [arrFor]
  have e1 : rrr_ldl (setHorizon s Horizon.tenYr)
      = rrr_ldl (setHorizon s Horizon.lifetime) := rfl
  have e2 : rrr_bp (setHorizon s Horizon.tenYr)
      = rrr_bp (setHorizon s Horizon.lifetime) := rfl
  have e3 : rrr_hba1c (setHorizon s Horizon.tenYr)
      = rrr_hba1c (setHorizon s Horizon.lifetime) := rfl
  rw [remaining_eq, remaining_eq, e0, e1, e2, e3]

/-- C8 counterexample: at capped baseline 0.1% (reachable for a low-risk
profile) adding "Stress reduction" (3% lifetime effect) does NOT strictly
decrease the reported final risk: one-decimal rounding reports 0.1% both
with and without it, refuting the claim as stated. -/
theorem C8_counterexample_rounding_absorbs_change :
    ¬ final_risk stateD' < final_risk stateD
    ∧ final_risk stateD' = 1/10 ∧ final_risk stateD = 1/10 := by
  have h1 : final_risk stateD' = 1/10 := by
    simp [stateD', final_risk, remaining, remaining_bp, remaining_ldl, remaining_iv, fldl,
      final_ldl, adjusted_ldl, interventions, ldl_effect, ldl_therapies, arrFor, List.lookup]
    norm_num [round1, round_eq]
  have h2 : final_risk stateD = 1/10 := by
    simp [stateD, final_risk, remaining, remaining_bp, remaining_ldl, remaining_iv, fldl,
      final_ldl, adjusted_ldl, interventions, ldl_effect, ldl_therapies, arrFor, List.lookup]
    norm_num [round1, round_eq]
  refine ⟨?_, h1, h2⟩
  rw [h1, h2]
  norm_num

/-- C8 amended: every catalog effect size is positive; adding any single
catalog intervention not already selected never increases the reported
final risk, and it strictly decreases the pre-rounding surviving
probability whenever the capped baseline is positive — but the reported
one-decimal figure can stay unchanged when the change is below the
rounding resolution. -/
theorem C8_amended_monotone :
    (∀ iv ∈ interventions, 0 < iv.arr_5yr ∧ 0 < iv.arr_lifetime)
    ∧ ∀ (s : StackIn) (iv : Intervention), iv ∈ interventions → iv.name ∉ s.ivs →
        0 ≤ s.baseline_risk_capped →
        final_risk (addIv s iv.name) ≤ final_risk s
        ∧ (0 < s.baseline_risk_capped → remaining (addIv s iv.name) < remaining s) := by
  constructor
  · intro iv hiv
    fin_cases hiv <;> constructor <;> norm_num
  · intro s iv hiv hn hb0
    have harr := arrFor_mem_bounds s.horizon iv hiv
    have hradd := remaining_addIv s iv hiv hn
    have hrnn : 0 ≤ remaining s := remaining_nonneg s hb0
    constructor
    · unfold final_risk
      apply round1_mono
      have hrem_le : remaining (addIv s iv.name) ≤ remaining s := by
        rw [hradd]
        nlinarith [harr.1, harr.2]
      linarith
    · intro hb
      rw [hradd]
      have hrpos : 0 < remaining s := remaining_pos s hb
      nlinarith [harr.1]

/-- C8 witness: adding smoking cessation to a 50% baseline state weakly
decreases the reported risk and strictly decreases the surviving
probability. -/
theorem C8_amended_monotone_witness :
    (0 < ivSmoking.arr_5yr ∧ 0 < ivSmoking.arr_lifetime)
    ∧ final_risk (addIv stateF ivSmoking.name) ≤ final_risk stateF
    ∧ remaining (addIv stateF ivSmoking.name) < remaining stateF := by
  have hmem : ivSmoking ∈ interventions := by simp [ivSmoking, interventions]
  have h := C8_amended_monotone.2 stateF ivSmoking hmem
    (by simp [stateF]) (by norm_num [stateF])
  exact ⟨C8_amended_monotone.1 ivSmoking hmem, h.1, h.2 (by norm_num [stateF])⟩

/-- C3 counterexample: at the in-range profile (age 90, male, SBP 220,
total cholesterol 10, HDL 0.5, smoker, diabetic, eGFR 15, CRP 2, three
vascular beds) the rounded 10-year baseline risk is exactly 100, which is
not in `[0, 100)`. -/
theorem C3_counterexample_risk10_reaches_100 :
    estimate_smart_risk 90 "Male" 220 10 0.5 true true 15 2 3 = 100
    ∧ ¬ estimate_smart_risk 90 "Male" 220 10 0.5 true true 15 2 3 < 100 := by
  have hlp : smart_lp 90 "Male" 220 10 0.5 true true 15 2 3
      = 14.725 + 0.25 * Real.log 3 := by
    unfold smart_lp crp_log
    norm_num
    linarith
  have hlog3 : 0 ≤ Real.log 3 := Real.log_nonneg (by norm_num)
  have h8 : (8 : ℝ) ≤ smart_lp 90 "Male" 220 10 0.5 true true 15 2 3 - 5.8 := by
    rw [hlp]; linarith
  have hexp8 : (118 : ℝ) ≤ Real.exp 8 := by
    have h1 : (2.7182818283 : ℝ) ^ (8 : ℕ) ≤ Real.exp 1 ^ (8 : ℕ) :=
      pow_le_pow_left₀ (by norm_num) (le_of_lt Real.exp_one_gt_d9) 8
    have h2 : Real.exp 1 ^ (8 : ℕ) = Real.exp 8 := by
      rw [← Real.exp_nat_mul]; norm_num
    have h3 : (118 : ℝ) ≤ (2.7182818283 : ℝ) ^ (8 : ℕ) := by norm_num
    linarith [h2 ▸ h1]
  have hE : (118 : ℝ) ≤ Real.exp (smart_lp 90 "Male" 220 10 0.5 true true 15 2 3 - 5.8) :=
    le_trans hexp8 (Real.exp_le_exp.mpr h8)
  have hqle : (0.900 : ℝ) ^ Real.exp (smart_lp 90 "Male" 220 10 0.5 true true 15 2 3 - 5.8)
      ≤ (0.900 : ℝ) ^ (((118 : ℕ) : ℝ)) :=
    Real.rpow_le_rpow_of_exponent_ge (by norm_num) (by norm_num) (by exact_mod_cast hE)
  have h118 : (0.900 : ℝ) ^ (((118 : ℕ) : ℝ)) ≤ 1 / 2000 := by
    rw [Real.rpow_natCast]; norm_num
  have hqpos := surv_pos (smart_lp 90 "Male" 220 10 0.5 true true 15 2 3 - 5.8)
  have hround : round (10 * ((1 - (0.900 : ℝ) ^
      Real.exp (smart_lp 90 "Male" 220 10 0.5 true true 15 2 3 - 5.8)) * 100)) = 1000 := by
    rw [round_eq, Int.floor_eq_iff]
    constructor
    · push_cast
      nlinarith
    · push_cast
      nlinarith
  have hval : estimate_smart_risk 90 "Male" 220 10 0.5 true true 15 2 3
      = ((1000 : ℤ) : ℝ) / 10 := by
    unfold estimate_smart_risk round1R
    rw [hround]
  constructor
  · rw [hval]; norm_num
  · rw [hval]; norm_num

/-- C3 amended: for every profile (in particular every valid one) the
rounded 10-year baseline risk lies in `[0, 100]` — it can reach exactly
100 for extreme in-range profiles — and the 5-year figure, always derived
from the rounded 10-year figure by the constant-hazard conversion, never
exceeds it. -/
theorem C3_amended_risk_bounds_and_horizon_monotone (age : ℝ) (sex : String)
    (sbp total_chol hdl : ℝ) (smoker diabetes : Bool) (egfr crp : ℝ) (vasc_count : ℕ) :
    0 ≤ estimate_smart_risk age sex sbp total_chol hdl smoker diabetes egfr crp vasc_count
    ∧ estimate_smart_risk age sex sbp total_chol hdl smoker diabetes egfr crp vasc_count ≤ 100
    ∧ convert_5yr_from_10yr
        (estimate_smart_risk age sex sbp total_chol hdl smoker diabetes egfr crp vasc_count)
      ≤ estimate_smart_risk age sex sbp total_chol hdl smoker diabetes egfr crp vasc_count := by
  have h0 := estimate_nonneg age sex sbp total_chol hdl smoker diabetes egfr crp vasc_count
  have h1 := estimate_le_100 age sex sbp total_chol hdl smoker diabetes egfr crp vasc_count
  refine ⟨h0, h1, ?_⟩
  obtain ⟨k, hk⟩ := estimate_form age sex sbp total_chol hdl smoker diabetes egfr crp vasc_count
  exact convert_le _ h0 h1 (by rw [hk]; exact round1R_int k)

/-- C4: the baseline risk is capped by a plain minimum with the
horizon-specific ceiling — 80 for five-year, 85 for ten-year, 90 for
lifetime — taken after the one-decimal rounding: the pre-cap baseline is
already of one-decimal form `k/10`, and so is the capped figure, which
never exceeds the ceiling. -/
theorem C4_cap_is_min_after_rounding (h : Horizon) (age : ℝ) (sex : String)
    (sbp total_chol hdl : ℝ) (smoker diabetes : Bool) (egfr crp : ℝ) (vasc_count : ℕ) :
    baseline_risk_capped h
        (estimate_smart_risk age sex sbp total_chol hdl smoker diabetes egfr crp vasc_count)
      = min (baseline_risk h
          (estimate_smart_risk age sex sbp total_chol hdl smoker diabetes egfr crp vasc_count))
          ((caps h : ℚ) : ℝ)
    ∧ caps Horizon.fiveYr = 80 ∧ caps Horizon.tenYr = 85 ∧ caps Horizon.lifetime = 90
    ∧ (∃ k : ℤ, baseline_risk h
        (estimate_smart_risk age sex sbp total_chol hdl smoker diabetes egfr crp vasc_count)
        = (k : ℝ) / 10)
    ∧ (∃ k : ℤ, baseline_risk_capped h
        (estimate_smart_risk age sex sbp total_chol hdl smoker diabetes egfr crp vasc_count)
        = (k : ℝ) / 10)
    ∧ baseline_risk_capped h
        (estimate_smart_risk age sex sbp total_chol hdl smoker diabetes egfr crp vasc_count)
      ≤ ((caps h : ℚ) : ℝ) := by
  have hform : ∃ k : ℤ, baseline_risk h
      (estimate_smart_risk age sex sbp total_chol hdl smoker diabetes egfr crp vasc_count)
      = (k : ℝ) / 10 := by
    cases h with
    | fiveYr =>
      simpa [baseline_risk] using convert_form
        (estimate_smart_risk age sex sbp total_chol hdl smoker diabetes egfr crp vasc_count)
    | tenYr =>
      simpa [baseline_risk] using estimate_form
        age sex sbp total_chol hdl smoker diabetes egfr crp vasc_count
    | lifetime =>
      simpa [baseline_risk] using estimate_form
        age sex sbp total_chol hdl smoker diabetes egfr crp vasc_count
  refine ⟨rfl, rfl, rfl, rfl, hform, ?_, min_le_right _ _⟩
  obtain ⟨k, hk⟩ := hform
  have hcap : ∃ m : ℤ, ((caps h : ℚ) : ℝ) = (m : ℝ) / 10 := by
    cases h with
    | fiveYr => exact ⟨800, by norm_num [caps]⟩
    | tenYr => exact ⟨850, by norm_num [caps]⟩
    | lifetime => exact ⟨900, by norm_num [caps]⟩
  obtain ⟨m, hm⟩ := hcap
  refine ⟨min k m, ?_⟩
  unfold baseline_risk_capped
  rw [hk, hm, min_tenth]

end CVD
